import Mathlib

/-!
Shallow embedding of the Freshmart coupon/discount/pricing engine.

The definitions below are translated from the repository source:
  * the cart page (subtotal / bulk-discount / delivery-charge `useMemo`,
    `handleApplyCoupon`, `handleRemoveCoupon`, `handleClearAllCoupons`,
    the `checkAutoApply` effect and the quantity/remove buttons);
  * the backend server (`POST /api/orders`, `POST /api/coupons/validate`,
    the `$addToSet` coupon-usage update).

Monetary values are modelled as rationals, quantities as naturals.
`Number(x.toFixed(2))` is modelled as rounding to the nearest hundredth
(the exact tie-breaking mode is not fixed by the source).
-/

/-- Rounding to two decimal places, the model of `Number(x.toFixed(2))`. -/
def round2 (x : ℚ) : ℚ := (round (x * 100) : ℤ) / 100

/-- A bulk pricing rule `{qty, price}` on a product: buying `qty` units
costs the flat bundle price `price`. -/
structure BulkRule where
  qty : Nat
  price : ℚ
deriving Repr, DecidableEq

/-- A cart line as used by the cart page calculations: unit price snapshot,
quantity and optional bulk rule snapshot. -/
structure CartItem where
  price : ℚ
  quantity : Nat
  bulkRule : Option BulkRule
deriving Repr, DecidableEq

/-- Contribution of one cart line to the accumulated bulk discount
(`regularCost - bulkCost` inside the `state.cart.forEach` loop); `0` when the
line has no bulk rule.  `bundles` is `Math.floor(quantity / rule.qty)` and
`remainder` is `quantity % rule.qty`. -/
def lineBulkContribution (item : CartItem) : ℚ :=
  match item.bulkRule with
  | none => 0
  | some rule =>
      let bundles : Nat := item.quantity / rule.qty
      let remainder : Nat := item.quantity % rule.qty
      let regularCost : ℚ := (item.quantity : ℚ) * item.price
      let bulkCost : ℚ := (bundles : ℚ) * rule.price + (remainder : ℚ) * item.price
      regularCost - bulkCost

/-- The cart subtotal: `sub += item.price * item.quantity` over the cart. -/
def subtotalOf (cart : List CartItem) : ℚ :=
  (cart.map (fun item => item.price * (item.quantity : ℚ))).sum

/-- The accumulated bulk discount before rounding (`bDisc` right before
`bDisc = Number(bDisc.toFixed(2))`). -/
def rawBulkDiscount (cart : List CartItem) : ℚ :=
  (cart.map lineBulkContribution).sum

/-- The bulk discount as computed by the cart page: the accumulated per-line
contributions, rounded once to two decimals. -/
def bulkDiscount (cart : List CartItem) : ℚ :=
  round2 (rawBulkDiscount cart)

/-- `netAmount = sub - bDisc` of the cart page. -/
def netAmount (cart : List CartItem) : ℚ :=
  subtotalOf cart - bulkDiscount cart

/-- Delivery charge tiering of the cart page, applied to `netAmount`:
`> 3000 → 0`, `>= 1000 → 25`, otherwise `50`. -/
def deliveryCharge (net : ℚ) : ℚ :=
  if net > 3000 then 0
  else if net ≥ 1000 then 25
  else 50

/-- The fixed, priority-ordered tiered coupon list of the cart page
(`TIERED_COUPONS`), highest threshold first; each entry is
(code, threshold). -/
def TIERED_COUPONS : List (String × ℚ) :=
  [("NEPAL100", 8000), ("ABOVE2500", 2500), ("ABOVE2000", 2000)]

/-- `TIERED_COUPONS.find(c => subtotal >= c.threshold)`: the tier target the
code computes, scanned on the SUBTOTAL. -/
def targetTierCoupon (subtotal : ℚ) : Option (String × ℚ) :=
  TIERED_COUPONS.find? (fun c => subtotal ≥ c.2)

/-- Modelled from the spec for comparison with `targetTierCoupon`: the
highest-priority tier whose threshold is at most the NET amount
(subtotal minus bulk discount), as §4.2 words the selection. -/
def specTargetTierCoupon (net : ℚ) : Option (String × ℚ) :=
  TIERED_COUPONS.find? (fun c => net ≥ c.2)

/-- Membership of a code in the tiered-bulk family
(`TIERED_COUPONS.some(tc => tc.code === code)`). -/
def isTiered (code : String) : Bool :=
  TIERED_COUPONS.any (fun tc => tc.1 == code)

/-- An applied coupon `{code, discount}` of the cart page state. -/
structure AppliedCoupon where
  code : String
  discount : ℚ
deriving Repr, DecidableEq

/-- Number of applied coupons drawn from the tiered family. -/
def countTiered (applied : List AppliedCoupon) : Nat :=
  (applied.filter (fun c => isTiered c.code)).length

/-- Coupon type tags of the coupon schema. -/
inductive CouponType
  | REGULAR
  | FIRST_ORDER
  | SPECIAL_GIFT
deriving Repr, DecidableEq

/-- A coupon document.  `expiryDate` is an epoch timestamp, `usedBy` the list
of user ids who redeemed the coupon. -/
structure Coupon where
  code : String
  discountAmount : ℚ
  expiryDate : Int
  minOrderAmount : ℚ
  couponType : CouponType
  targetUsername : Option String
  giftMessage : Option String
  isActive : Bool
  usedBy : List String
deriving Repr, DecidableEq

/-- Rejection reasons of `POST /api/coupons/validate`, one tag per error
string returned by the endpoint. -/
inductive CouponError
  | invalidCode
  | expired
  | alreadyRedeemed
  | notYourCoupon
  | belowMinimum
  | firstOrderOnly
deriving Repr, DecidableEq

/-- Outcome of coupon validation: `{isValid: true, coupon}` or
`{isValid: false, error}`. -/
inductive ValidateResult
  | valid (c : Coupon)
  | invalid (e : CouponError)
deriving Repr, DecidableEq

/-- One raw order item of the order-creation request body. -/
structure OrderItem where
  id : String
  name : String
  price : ℚ
  quantity : Nat
deriving Repr, DecidableEq

/-- The order-creation request body.  `clientTotal` and `clientFinalTotal`
model the `total` / `finalTotal` figures the client transmits;
the zod `orderSchema` strips them and the handler never destructures them. -/
structure OrderRequest where
  items : List OrderItem
  discount : Option ℚ
  couponCodes : Option (List String)
  deliveryCharge : Option ℚ
  clientTotal : Option ℚ
  clientFinalTotal : Option ℚ
  username : Option String
deriving Repr, DecidableEq

/-- An order document as persisted by `POST /api/orders`.  The handler writes
the requesting user id into the field `user`; no `userId` path is ever
written, which the `userId : Option String` field records. -/
structure StoredOrder where
  orderId : String
  user : String
  username : String
  items : List OrderItem
  totalAmount : ℚ
  discountApplied : ℚ
  deliveryCharge : ℚ
  finalAmount : ℚ
  userId : Option String
deriving Repr, DecidableEq

/-- `items.reduce((sum, item) => sum + (item.price * item.quantity), 0)`. -/
def calculatedTotal (items : List OrderItem) : ℚ :=
  items.foldl (fun sum item => sum + item.price * (item.quantity : ℚ)) 0

/-- The order document built by `POST /api/orders` from the request body and
the authenticated identity.  `discount || 0` and `deliveryCharge || 0` are
modelled by `Option.getD 0` (absent or zero both yield zero), and
`username || req.user.username` by `Option.getD tokenUsername`. -/
def placeOrder (req : OrderRequest) (uid : String) (tokenUsername : String) : StoredOrder :=
  let total := calculatedTotal req.items
  let validDiscount := req.discount.getD 0
  let validDelivery := req.deliveryCharge.getD 0
  { orderId := "ORD"
    user := uid
    username := req.username.getD tokenUsername
    items := req.items
    totalAmount := total
    discountApplied := validDiscount
    deliveryCharge := validDelivery
    finalAmount := total - validDiscount + validDelivery
    userId := none }

/-- `$addToSet` semantics: insert unless already present. -/
def addToSet (l : List String) (x : String) : List String :=
  if x ∈ l then l else l ++ [x]

/-- `Coupon.updateMany({code: {$in: couponCodes}}, {$addToSet: {usedBy: uid}})`
run by the order handler: every matched coupon gets the user id added to its
`usedBy` set. -/
def markCouponsUsed (db : List Coupon) (codes : List String) (uid : String) : List Coupon :=
  db.map (fun c => if c.code ∈ codes then { c with usedBy := addToSet c.usedBy uid } else c)

/-- The `coupon.usedBy.includes(userId)` membership test of the validation
endpoint. -/
def hasUsed (c : Coupon) (uid : String) : Bool :=
  c.usedBy.contains uid

/-- Model of `.toUpperCase()` as a character map. -/
def toUpperStr (s : String) : String := ⟨s.data.map Char.toUpper⟩

/-- Model of `.toLowerCase()` as a character map. -/
def toLowerStr (s : String) : String := ⟨s.data.map Char.toLower⟩

/-- Model of `.trim()`: strip leading and trailing whitespace. -/
def trimStr (s : String) : String :=
  ⟨((s.data.dropWhile Char.isWhitespace).reverse.dropWhile Char.isWhitespace).reverse⟩

/-- `Coupon.findOne({code: code.toUpperCase(), isActive: true})`. -/
def findActiveCoupon (db : List Coupon) (code : String) : Option Coupon :=
  db.find? (fun c => c.code == toUpperStr code && c.isActive)

/-- `Order.countDocuments({ userId })` as issued by the FIRST_ORDER check:
it filters on a `userId` path, which stored orders do not carry (they store
the buyer under `user`). -/
def countOrdersByUserIdField (orders : List StoredOrder) (uid : String) : Nat :=
  (orders.filter (fun o => o.userId == some uid)).length

/-- Tail of the validation endpoint after the targeted-user checks: the
minimum-order check (skipped when `targetUsername` is set or the type is
SPECIAL_GIFT, and when `minOrderAmount` is falsy) followed by the
FIRST_ORDER prior-order check. -/
def validateTail (coupon : Coupon) (orders : List StoredOrder) (uid : String)
    (orderTotal : ℚ) : ValidateResult :=
  let isSpecialGift := coupon.targetUsername.isSome || coupon.couponType == .SPECIAL_GIFT
  if ¬ isSpecialGift = true ∧ coupon.minOrderAmount ≠ 0 ∧ orderTotal < coupon.minOrderAmount then
    .invalid .belowMinimum
  else if coupon.couponType = .FIRST_ORDER ∧ 0 < countOrdersByUserIdField orders uid then
    .invalid .firstOrderOnly
  else
    .valid coupon

/-- `POST /api/coupons/validate`.  `username` is the resolved requester
username (`none` models a falsy username: absent from the token and from the
user record).  Checks run in source order: lookup, expiry, already-redeemed
(guarded by `username &&`), targeted-user match (trimmed, case-insensitive),
then `validateTail`. -/
def validateCoupon (db : List Coupon) (orders : List StoredOrder) (uid : String)
    (username : Option String) (code : String) (orderTotal : ℚ) (now : Int) : ValidateResult :=
  match findActiveCoupon db code with
  | none => .invalid .invalidCode
  | some coupon =>
    if coupon.expiryDate < now then .invalid .expired
    else if username.isSome = true ∧ hasUsed coupon uid = true then .invalid .alreadyRedeemed
    else
      match coupon.targetUsername, username with
      | some t, some u =>
          if toLowerStr (trimStr t) ≠ toLowerStr (trimStr u) then .invalid .notYourCoupon
          else validateTail coupon orders uid orderTotal
      | some _, none => .invalid .notYourCoupon
      | none, _ => validateTail coupon orders uid orderTotal

/-- The coupon the client appends on a valid response:
`{code: result.coupon.code, discount: result.coupon.discountAmount}`;
`none` when `isValid` is false. -/
def toClientCoupon (r : ValidateResult) : Option AppliedCoupon :=
  match r with
  | .valid c => some ⟨c.code, c.discountAmount⟩
  | .invalid _ => none

/-- `handleApplyCoupon`: an `AlreadyApplied` early return when the typed code
is in the applied set, otherwise the validated coupon (if any) is appended. -/
def applyStep (code : String) (res : Option AppliedCoupon)
    (applied : List AppliedCoupon) : List AppliedCoupon :=
  if applied.any (fun c => c.code == code) then applied
  else
    match res with
    | some c => applied ++ [c]
    | none => applied

/-- `handleRemoveCoupon`: drop the coupon with the given code. -/
def removeStep (code : String) (applied : List AppliedCoupon) : List AppliedCoupon :=
  applied.filter (fun c => c.code != code)

/-- Step 3 of `checkAutoApply` (tiered bulk logic): the target tier is chosen
on the subtotal; when it differs from the code of the first applied tiered
coupon, and validation succeeded, every tiered coupon is removed and the
validated coupon appended; when no tier qualifies, applied tiered coupons
are removed. -/
def tierStep (subtotal : ℚ) (res : Option AppliedCoupon)
    (applied : List AppliedCoupon) : List AppliedCoupon :=
  match targetTierCoupon subtotal with
  | some t =>
      let active := applied.find? (fun c => isTiered c.code)
      if active.map (fun c => c.code) = some t.1 then applied
      else
        match res with
        | some newCoupon => (applied.filter (fun c => !(isTiered c.code))) ++ [newCoupon]
        | none => applied
  | none =>
      match applied.find? (fun c => isTiered c.code) with
      | some _ => applied.filter (fun c => !(isTiered c.code))
      | none => applied

/-- Step 2 of `checkAutoApply` (first-order logic): when the catalog's
FIRST_ORDER coupon code is not yet applied, the validated coupon (if any) is
appended.  Same shape as a manual apply of that code. -/
def firstOrderStep (code : String) (res : Option AppliedCoupon)
    (applied : List AppliedCoupon) : List AppliedCoupon :=
  if applied.any (fun c => c.code == code) then applied
  else
    match res with
    | some c => applied ++ [c]
    | none => applied

/-- Events that rewrite the applied-coupon set.  Validation responses are
carried in the event (`res`), since they arrive from the network. -/
inductive CartEvent
  | cartMutation
  | removeCoupon (code : String)
  | manualApply (code : String) (res : Option AppliedCoupon)
  | tierPass (subtotal : ℚ) (res : Option AppliedCoupon)
  | firstOrderPass (code : String) (res : Option AppliedCoupon)
deriving Repr, DecidableEq

/-- Effect of one event on the applied-coupon set.  A cart mutation runs
`handleClearAllCoupons`, which empties the set. -/
def stepEvent : CartEvent → List AppliedCoupon → List AppliedCoupon
  | .cartMutation, _ => []
  | .removeCoupon code, applied => removeStep code applied
  | .manualApply code res, applied => applyStep code res applied
  | .tierPass s res, applied => tierStep s res applied
  | .firstOrderPass code res, applied => firstOrderStep code res applied

/-- Run a sequence of events from the empty applied set. -/
def runEvents (events : List CartEvent) : List AppliedCoupon :=
  events.foldl (fun applied e => stepEvent e applied) []

/-- Applied-coupon sets reachable WITHOUT manual applies: cart mutations,
coupon removals, tier passes, and first-order passes whose appended coupon
is not from the tiered family. -/
inductive AutoReachable : List AppliedCoupon → Prop
  | init : AutoReachable []
  | mutate {applied} : AutoReachable applied →
      AutoReachable (stepEvent .cartMutation applied)
  | remove {applied} (code : String) : AutoReachable applied →
      AutoReachable (stepEvent (.removeCoupon code) applied)
  | tier {applied} (s : ℚ) (res : Option AppliedCoupon) : AutoReachable applied →
      AutoReachable (stepEvent (.tierPass s res) applied)
  | firstOrder {applied} (code : String) (res : Option AppliedCoupon)
      (hres : ∀ c, res = some c → isTiered c.code = false) :
      AutoReachable applied →
      AutoReachable (stepEvent (.firstOrderPass code res) applied)

/-- The coupon-related UI state the cart page holds alongside the cart. -/
structure CouponUIState where
  appliedCoupons : List AppliedCoupon
  autoApplied : Bool
  autoApplyMessage : String
  couponError : String
deriving Repr, DecidableEq

/-- `handleClearAllCoupons`: empties the applied set and resets the
auto-apply flags and the error message. -/
def clearAllCoupons : CouponUIState :=
  { appliedCoupons := [], autoApplied := false, autoApplyMessage := "", couponError := "" }

/-- A cart line as rendered in the cart list (with id and stock, which the
quantity buttons read). -/
structure CartLine where
  id : Nat
  price : ℚ
  quantity : Nat
  stock : Nat
  bulkRule : Option BulkRule
deriving Repr, DecidableEq

/-- The cart page state the three line buttons act on. -/
structure CartPageState where
  cart : List CartLine
  ui : CouponUIState
deriving Repr, DecidableEq

/-- Modelled from the spec: the store reducer case for `UPDATE_CART_QTY`
(the StoreContext module is not among the provided sources); it sets the
identified line to the dispatched quantity. -/
def setLineQty (cart : List CartLine) (lineId : Nat) (q : Int) : List CartLine :=
  cart.map (fun l => if l.id = lineId then { l with quantity := q.toNat } else l)

/-- Modelled from the spec: the store reducer case for `REMOVE_FROM_CART`
(the StoreContext module is not among the provided sources); it drops the
identified line. -/
def removeLine (cart : List CartLine) (lineId : Nat) : List CartLine :=
  cart.filter (fun l => l.id ≠ lineId)

/-- The minus button: dispatches `UPDATE_CART_QTY` with `quantity - 1` and
then runs `handleClearAllCoupons`.  The reducer is a parameter. -/
def minusButtonClick (updateQty : List CartLine → Nat → Int → List CartLine)
    (st : CartPageState) (l : CartLine) : CartPageState :=
  { cart := updateQty st.cart l.id ((l.quantity : Int) - 1), ui := clearAllCoupons }

/-- The plus button: guarded by `!isMaxStock`; it dispatches
`UPDATE_CART_QTY` with `quantity + 1` and does NOT touch the coupon state. -/
def plusButtonClick (updateQty : List CartLine → Nat → Int → List CartLine)
    (st : CartPageState) (l : CartLine) : CartPageState :=
  if l.quantity ≥ l.stock then st
  else { cart := updateQty st.cart l.id ((l.quantity : Int) + 1), ui := st.ui }

/-- The trash button: dispatches `REMOVE_FROM_CART` and then runs
`handleClearAllCoupons`. -/
def removeButtonClick (remove : List CartLine → Nat → List CartLine)
    (st : CartPageState) (l : CartLine) : CartPageState :=
  { cart := remove st.cart l.id, ui := clearAllCoupons }

lemma foldl_add_map_sum (f : OrderItem → ℚ) (l : List OrderItem) (a : ℚ) :
    l.foldl (fun s i => s + f i) a = a + (l.map f).sum := by
  induction l generalizing a with
  | nil => simp
  | cons x xs ih => simp [ih, add_assoc]

lemma calculatedTotal_eq_sum (items : List OrderItem) :
    calculatedTotal items = (items.map (fun i => i.price * (i.quantity : ℚ))).sum := by
  simp [calculatedTotal, foldl_add_map_sum]

/-- C1: a successfully placed order persists `totalAmount` as the sum of
`item.price * item.quantity` over the submitted raw items, recomputed by the
server; the client-sent subtotal/total figures have no effect on it. -/
theorem order_totalAmount_recomputed (req : OrderRequest) (uid uname : String) :
    (placeOrder req uid uname).totalAmount
      = (req.items.map (fun i => i.price * (i.quantity : ℚ))).sum ∧
    ∀ t tf : Option ℚ,
      (placeOrder { req with clientTotal := t, clientFinalTotal := tf } uid uname).totalAmount
        = (placeOrder req uid uname).totalAmount := by
  refine ⟨?_, fun t tf => rfl⟩
  simp [placeOrder, calculatedTotal_eq_sum]

/-- C8: the delivery charge is 50 below a net amount of 1000, 25 between
1000 and 3000 inclusive, and 0 above 3000. -/
theorem deliveryCharge_tiering (net : ℚ) :
    (net < 1000 → deliveryCharge net = 50) ∧
    (1000 ≤ net ∧ net ≤ 3000 → deliveryCharge net = 25) ∧
    (3000 < net → deliveryCharge net = 0) := by
  refine ⟨fun h => ?_, fun h => ?_, fun h => ?_⟩
  · rw [deliveryCharge, if_neg (by linarith), if_neg (by linarith)]
  · rw [deliveryCharge, if_neg (by linarith), if_pos h.1]
  · rw [deliveryCharge, if_pos h]

/-- Witness for C8 at the boundary values and one point of each open tier. -/
theorem deliveryCharge_tiering_witness :
    deliveryCharge 999 = 50 ∧ deliveryCharge 1000 = 25 ∧
    deliveryCharge 3000 = 25 ∧ deliveryCharge 3001 = 0 :=
  ⟨(deliveryCharge_tiering 999).1 (by norm_num),
   (deliveryCharge_tiering 1000).2.1 ⟨by norm_num, by norm_num⟩,
   (deliveryCharge_tiering 3000).2.1 ⟨by norm_num, by norm_num⟩,
   (deliveryCharge_tiering 3001).2.2 (by norm_num)⟩

/-- Modelled from the spec for comparison: per-line bulk discount with the
`max(0, ...)` clamp §4.1 states. -/
def specLineBulkDiscount (item : CartItem) : ℚ :=
  round2 (max 0 (lineBulkContribution item))

/-- A line whose bundle price exceeds the per-unit cost of a bundle:
price 10, quantity 2, bulk rule \x7bqty 2, price 30\x7d. -/
def itemC4 : CartItem := ⟨10, 2, some ⟨2, 30⟩⟩

lemma round2_intCast (n : ℤ) : round2 (n : ℚ) = n := by
  have h : ((n : ℚ) * 100) = ((n * 100 : ℤ) : ℚ) := by push_cast; ring
  rw [round2, h, round_intCast]
  push_cast
  ring

lemma round2_zero : round2 0 = 0 := by
  simpa using round2_intCast 0

lemma lineBulkContribution_itemC4 : lineBulkContribution itemC4 = -10 := by
  norm_num [lineBulkContribution, itemC4]

/-- Counterexample to C4: the computed bulk discount of this single-line cart
is -10, strictly negative, while the claimed `max(0, ...)` formula gives 0. -/
theorem bulk_discount_can_be_negative :
    bulkDiscount [itemC4] = -10 ∧ specLineBulkDiscount itemC4 = 0 := by
  constructor
  · have h : rawBulkDiscount [itemC4] = ((-10 : ℤ) : ℚ) := by
      simp [rawBulkDiscount, lineBulkContribution_itemC4]
    rw [bulkDiscount, h, round2_intCast]
    norm_num
  · have h : max 0 (lineBulkContribution itemC4) = 0 := by
      rw [lineBulkContribution_itemC4]
      norm_num
    rw [specLineBulkDiscount, h, round2_zero]

/-- C4 as amended: for a single-line cart the computed bulk discount is
`round2 (Q*P - (floor(Q/N)*B + (Q mod N)*P))` with NO clamp at zero (so it
can be negative), and a line without a bulk rule contributes 0. -/
theorem bulk_discount_formula (P B : ℚ) (Q N : Nat) :
    bulkDiscount [⟨P, Q, some ⟨N, B⟩⟩]
      = round2 ((Q : ℚ) * P - (((Q / N : Nat) : ℚ) * B + ((Q % N : Nat) : ℚ) * P)) ∧
    bulkDiscount [⟨P, Q, none⟩] = 0 := by
  constructor
  · simp [bulkDiscount, rawBulkDiscount, lineBulkContribution]
  · simp [bulkDiscount, rawBulkDiscount, lineBulkContribution, round2_zero]

/-- The plus-button state used for the C7 counterexample: one line below its
stock limit and one applied coupon. -/
def lineC7 : CartLine := ⟨1, 10, 1, 5, none⟩

/-- Cart page state holding `lineC7` and one applied coupon. -/
def stC7 : CartPageState :=
  { cart := [lineC7], ui := { appliedCoupons := [⟨"SAVE5", 5⟩], autoApplied := false, autoApplyMessage := "", couponError := "" } }

/-- Counterexample to C7: increasing a line quantity (plus button) changes
the cart but leaves the applied-coupon set untouched, so the set is NOT
cleared on every quantity adjustment. -/
theorem plus_button_keeps_coupons :
    (plusButtonClick setLineQty stC7 lineC7).ui.appliedCoupons = [⟨"SAVE5", 5⟩] ∧
    (plusButtonClick setLineQty stC7 lineC7).cart ≠ stC7.cart := by
  constructor <;> decide

/-- C7 as amended: removing a line and decreasing a quantity clear the whole
applied-coupon set unconditionally; increasing a quantity never touches it. -/
theorem cart_mutation_coupon_clearing
    (updateQty : List CartLine → Nat → Int → List CartLine)
    (remove : List CartLine → Nat → List CartLine)
    (st : CartPageState) (l : CartLine) :
    (minusButtonClick updateQty st l).ui.appliedCoupons = [] ∧
    (removeButtonClick remove st l).ui.appliedCoupons = [] ∧
    (plusButtonClick updateQty st l).ui.appliedCoupons = st.ui.appliedCoupons := by
  refine ⟨rfl, rfl, ?_⟩
  rw [plusButtonClick]
  split <;> rfl

/-- Cart for the C3 counterexample: one line, price 100, quantity 20, bulk
rule \x7bqty 20, price 1000\x7d, so the subtotal is 2000 while the net amount
(after the 1000 bulk discount) is 1000. -/
def cartC3 : List CartItem := [⟨100, 20, some ⟨20, 1000⟩⟩]

lemma subtotalOf_cartC3 : subtotalOf cartC3 = 2000 := by
  norm_num [subtotalOf, cartC3]

lemma netAmount_cartC3 : netAmount cartC3 = 1000 := by
  have hraw : rawBulkDiscount cartC3 = ((1000 : ℤ) : ℚ) := by
    norm_num [rawBulkDiscount, lineBulkContribution, cartC3]
  have hb : bulkDiscount cartC3 = 1000 := by
    rw [bulkDiscount, hraw, round2_intCast]
    norm_num
  rw [netAmount, hb, subtotalOf_cartC3]
  norm_num

/-- Counterexample to C3: on this cart the auto-apply evaluation targets the
ABOVE2000 tier (it scans the SUBTOTAL, 2000), while no tier threshold is at
or below the net amount (1000), so the spec-worded selection yields none. -/
theorem tier_target_ignores_net_amount :
    targetTierCoupon (subtotalOf cartC3) = some ("ABOVE2000", 2000) ∧
    specTargetTierCoupon (netAmount cartC3) = none := by
  constructor
  · rw [subtotalOf_cartC3]
    decide
  · rw [netAmount_cartC3]
    decide

/-- C3 as amended: the tier target is the highest-threshold coupon of the
priority list whose threshold is at most the SUBTOTAL (before the bulk
discount), and when the subtotal is below every threshold the tier pass
strips every applied tiered coupon. -/
theorem tier_selection_uses_subtotal (s : ℚ) :
    targetTierCoupon s =
      (if s ≥ 8000 then some ("NEPAL100", 8000)
       else if s ≥ 2500 then some ("ABOVE2500", 2500)
       else if s ≥ 2000 then some ("ABOVE2000", 2000)
       else none) ∧
    (s < 2000 → ∀ (res : Option AppliedCoupon) (applied : List AppliedCoupon),
      tierStep s res applied = applied.filter (fun c => !(isTiered c.code))) := by
  have hsel : targetTierCoupon s =
      (if s ≥ 8000 then some ("NEPAL100", 8000)
       else if s ≥ 2500 then some ("ABOVE2500", 2500)
       else if s ≥ 2000 then some ("ABOVE2000", 2000)
       else none) := by
    by_cases h1 : s ≥ 8000
    · simp [targetTierCoupon, TIERED_COUPONS, List.find?, h1]
    · by_cases h2 : s ≥ 2500
      · simp [targetTierCoupon, TIERED_COUPONS, List.find?, h1, h2]
      · by_cases h3 : s ≥ 2000
        · simp [targetTierCoupon, TIERED_COUPONS, List.find?, h1, h2, h3]
        · simp [targetTierCoupon, TIERED_COUPONS, List.find?, h1, h2, h3]
  refine ⟨hsel, fun hs res applied => ?_⟩
  have htarget : targetTierCoupon s = none := by
    rw [hsel, if_neg (by linarith), if_neg (by linarith), if_neg (by linarith)]
  rw [tierStep.eq_def, htarget]
  cases hfind : applied.find? (fun c => isTiered c.code) with
  | none =>
      have hall : ∀ c ∈ applied, ¬ (isTiered c.code = true) := by
        simpa using List.find?_eq_none.mp hfind
      have : applied.filter (fun c => !(isTiered c.code)) = applied := by
        rw [List.filter_eq_self]
        intro a ha
        simpa using hall a ha
      rw [this]
  | some a => rfl

/-- Witness for C3 as amended: at subtotal 2100 the ABOVE2000 tier is the
target, and at subtotal 1500 the tier pass removes an applied tiered coupon. -/
theorem tier_selection_uses_subtotal_witness :
    targetTierCoupon 2100 = some ("ABOVE2000", 2000) ∧
    tierStep 1500 none [⟨"ABOVE2000", 50⟩] = [] := by
  constructor
  · have h := (tier_selection_uses_subtotal 2100).1
    rw [h, if_neg (by norm_num), if_neg (by norm_num), if_pos (by norm_num)]
  · have h := (tier_selection_uses_subtotal 1500).2 (by norm_num) none [⟨"ABOVE2000", 50⟩]
    rw [h]
    decide

/-- The NEPAL100 tier coupon as a catalog document (REGULAR, untargeted,
active, minimum order 8000, unexpired at time 0). -/
def couponNEPAL : Coupon :=
  { code := "NEPAL100", discountAmount := 100, expiryDate := 100,
    minOrderAmount := 8000, couponType := .REGULAR, targetUsername := none,
    giftMessage := none, isActive := true, usedBy := [] }

/-- The ABOVE2000 tier coupon as a catalog document (REGULAR, untargeted,
active, minimum order 2000, unexpired at time 0). -/
def couponABOVE2000 : Coupon :=
  { code := "ABOVE2000", discountAmount := 50, expiryDate := 100,
    minOrderAmount := 2000, couponType := .REGULAR, targetUsername := none,
    giftMessage := none, isActive := true, usedBy := [] }

/-- Catalog holding the two tier coupons. -/
def catalogDb : List Coupon := [couponNEPAL, couponABOVE2000]

/-- C2 counterexample trace: an auto tier pass at subtotal 8200 (validation
of NEPAL100 succeeds against the catalog), then a manual apply of ABOVE2000
(validation also succeeds, 8200 meeting its 2000 minimum). -/
def traceC2 : List CartEvent :=
  [CartEvent.tierPass 8200
     (toClientCoupon (validateCoupon catalogDb [] "u1" (some "sid") "NEPAL100" 8200 0)),
   CartEvent.manualApply "ABOVE2000"
     (toClientCoupon (validateCoupon catalogDb [] "u1" (some "sid") "ABOVE2000" 8200 0))]

/-- Counterexample to C2: after the trace the applied set holds TWO coupons
of the tiered family, and a further auto tier pass leaves that state fixed
(the first applied tiered coupon already equals the target). -/
theorem two_tiered_coupons_reachable :
    countTiered (runEvents traceC2) = 2 ∧
    stepEvent (CartEvent.tierPass 8200
        (toClientCoupon (validateCoupon catalogDb [] "u1" (some "sid") "NEPAL100" 8200 0)))
      (runEvents traceC2) = runEvents traceC2 := by
  constructor <;> decide

lemma countTiered_append (xs ys : List AppliedCoupon) :
    countTiered (xs ++ ys) = countTiered xs + countTiered ys := by
  simp [countTiered, List.filter_append]

lemma countTiered_filter_not (applied : List AppliedCoupon) :
    countTiered (applied.filter (fun c => !(isTiered c.code))) = 0 := by
  induction applied with
  | nil => rfl
  | cons a l ih =>
      by_cases h : isTiered a.code
      · simp [List.filter_cons, h, countTiered] at ih ⊢
      · simp [List.filter_cons, h, countTiered] at ih ⊢

lemma countTiered_filter_le (p : AppliedCoupon → Bool) (applied : List AppliedCoupon) :
    countTiered (applied.filter p) ≤ countTiered applied := by
  rw [countTiered, countTiered, List.filter_comm]
  exact List.length_filter_le _ _

lemma countTiered_single (c : AppliedCoupon) : countTiered [c] ≤ 1 := by
  by_cases h : isTiered c.code <;> simp [countTiered, h]

lemma countTiered_tierStep (s : ℚ) (res : Option AppliedCoupon)
    (applied : List AppliedCoupon) (h : countTiered applied ≤ 1) :
    countTiered (tierStep s res applied) ≤ 1 := by
  rw [tierStep.eq_def]
  cases htarget : targetTierCoupon s with
  | some t =>
      dsimp only
      by_cases hactive :
          (applied.find? (fun c => isTiered c.code)).map (fun c => c.code) = some t.1
      · rw [if_pos hactive]
        exact h
      · rw [if_neg hactive]
        cases res with
        | some newCoupon =>
            rw [countTiered_append, countTiered_filter_not]
            simpa using countTiered_single newCoupon
        | none => exact h
  | none =>
      dsimp only
      cases hfind : applied.find? (fun c => isTiered c.code) with
      | some a => exact le_trans (countTiered_filter_le _ _) h
      | none => exact h

lemma countTiered_firstOrderStep (code : String) (res : Option AppliedCoupon)
    (applied : List AppliedCoupon) (h : countTiered applied ≤ 1)
    (hres : ∀ c, res = some c → isTiered c.code = false) :
    countTiered (firstOrderStep code res applied) ≤ 1 := by
  rw [firstOrderStep.eq_def]
  by_cases hin : applied.any (fun c => c.code == code)
  · rw [if_pos hin]
    exact h
  · rw [if_neg hin]
    cases hres2 : res with
    | some c =>
        rw [countTiered_append]
        have hc : isTiered c.code = false := hres c hres2
        simpa [countTiered, hc] using h
    | none => exact h

/-- C2 as amended: in every applied-coupon state reachable from empty by
cart mutations, coupon removals, auto tier passes, and first-order passes
whose appended coupon is outside the tiered family, at most one tiered
coupon is applied.  (A MANUAL apply of a second tiered code can break this,
see the counterexample.) -/
theorem auto_reachable_at_most_one_tiered {applied : List AppliedCoupon}
    (h : AutoReachable applied) : countTiered applied ≤ 1 := by
  induction h with
  | init => simp [countTiered]
  | mutate _ ih => simp [stepEvent, countTiered]
  | remove code _ ih =>
      simp only [stepEvent, removeStep]
      exact le_trans (countTiered_filter_le _ _) ih
  | tier s res _ ih => exact countTiered_tierStep s res _ ih
  | firstOrder code res hres _ ih => exact countTiered_firstOrderStep code res _ ih hres

/-- Witness for the amended C2 at a concrete auto-reached state. -/
theorem auto_reachable_at_most_one_tiered_witness :
    countTiered (stepEvent (CartEvent.tierPass 8200 (some ⟨"NEPAL100", 100⟩)) []) ≤ 1 :=
  auto_reachable_at_most_one_tiered
    (AutoReachable.tier 8200 (some ⟨"NEPAL100", 100⟩) AutoReachable.init)

lemma validateTail_special (coupon : Coupon) (orders : List StoredOrder)
    (uid : String) (total : ℚ)
    (hgift : coupon.targetUsername.isSome = true ∨ coupon.couponType = .SPECIAL_GIFT)
    (hfirst : coupon.couponType = .FIRST_ORDER → countOrdersByUserIdField orders uid = 0) :
    validateTail coupon orders uid total = .valid coupon := by
  have hb : (coupon.targetUsername.isSome || (coupon.couponType == CouponType.SPECIAL_GIFT)) = true := by
    rcases hgift with h | h <;> simp [h]
  rw [validateTail]
  rw [if_neg (by simp [hb])]
  by_cases hft : coupon.couponType = .FIRST_ORDER
  · rw [if_neg (by simp [hfirst hft])]
  · rw [if_neg (by simp [hft])]

lemma validateTail_ne_belowMinimum (coupon : Coupon) (orders : List StoredOrder)
    (uid : String) (total : ℚ)
    (hgift : coupon.targetUsername.isSome = true ∨ coupon.couponType = .SPECIAL_GIFT) :
    validateTail coupon orders uid total ≠ .invalid .belowMinimum := by
  have hb : (coupon.targetUsername.isSome || (coupon.couponType == CouponType.SPECIAL_GIFT)) = true := by
    rcases hgift with h | h <;> simp [h]
  rw [validateTail]
  rw [if_neg (by simp [hb])]
  split <;> simp

/-- C5: for a coupon with `targetUsername` set, once the lookup, expiry,
redeemed and first-order checks pass, validation accepts iff the requester
username equals the target trimmed and case-insensitively — for EVERY order
total, so the minimum-order check is skipped; and a targeted or SPECIAL_GIFT
coupon is never rejected with the below-minimum reason. -/
theorem targeted_coupon_acceptance
    (db : List Coupon) (orders : List StoredOrder) (uid code : String)
    (total : ℚ) (now : Int) (coupon : Coupon)
    (hfind : findActiveCoupon db code = some coupon) :
    (∀ t u : String, coupon.targetUsername = some t →
       ¬ coupon.expiryDate < now →
       uid ∉ coupon.usedBy →
       (coupon.couponType = .FIRST_ORDER → countOrdersByUserIdField orders uid = 0) →
       (validateCoupon db orders uid (some u) code total now = .valid coupon
          ↔ toLowerStr (trimStr t) = toLowerStr (trimStr u))) ∧
    (∀ username : Option String,
       ¬ coupon.expiryDate < now →
       (coupon.targetUsername.isSome = true ∨ coupon.couponType = .SPECIAL_GIFT) →
       validateCoupon db orders uid username code total now ≠ .invalid .belowMinimum) := by
  constructor
  · intro t u htarget hexp hused hfirst
    rw [validateCoupon, hfind]
    dsimp only
    rw [if_neg hexp]
    rw [if_neg (by simp [hasUsed, hused])]
    rw [htarget]
    dsimp only
    by_cases hmatch : toLowerStr (trimStr t) = toLowerStr (trimStr u)
    · rw [if_neg (by simpa using hmatch)]
      rw [validateTail_special coupon orders uid total (by simp [htarget]) hfirst]
      simp [hmatch]
    · rw [if_pos (by simpa using hmatch)]
      simp [hmatch]
  · intro username hexp hgift
    rw [validateCoupon, hfind]
    dsimp only
    rw [if_neg hexp]
    by_cases hred : username.isSome = true ∧ hasUsed coupon uid = true
    · rw [if_pos hred]
      simp
    · rw [if_neg hred]
      cases ht : coupon.targetUsername with
      | some t =>
          cases username with
          | some u =>
              dsimp only
              by_cases hmatch : toLowerStr (trimStr t) ≠ toLowerStr (trimStr u)
              · rw [if_pos hmatch]
                simp
              · rw [if_neg hmatch]
                exact validateTail_ne_belowMinimum coupon orders uid total hgift
          | none => simp
      | none =>
          cases username with
          | some u => exact validateTail_ne_belowMinimum coupon orders uid total (by simpa [ht] using hgift)
          | none => exact validateTail_ne_belowMinimum coupon orders uid total (by simpa [ht] using hgift)

/-- A special-gift coupon targeted at user Alice, minimum order 500. -/
def giftCoupon : Coupon :=
  { code := "GIFT10", discountAmount := 10, expiryDate := 100,
    minOrderAmount := 500, couponType := .SPECIAL_GIFT,
    targetUsername := some "Alice", giftMessage := some "enjoy",
    isActive := true, usedBy := [] }

/-- Witness for C5: the gift coupon is accepted for requester username
" ALICE " (trimmed, case-insensitive match) at an order total of 5, far
below its stated minimum of 500. -/
theorem targeted_coupon_acceptance_witness :
    validateCoupon [giftCoupon] [] "u1" (some " ALICE ") "gift10" 5 0 = .valid giftCoupon :=
  ((targeted_coupon_acceptance [giftCoupon] [] "u1" "gift10" 5 0 giftCoupon
      (by decide)).1 "Alice" " ALICE " rfl (by decide) (by decide)
      (fun _ => rfl)).mpr (by decide)

/-- C10: when the requester username cannot be resolved (absent from the
token and from the user record), the already-redeemed check is skipped, so a
user already present in the coupon usedBy set is still reported valid,
provided the remaining checks pass. -/
theorem missing_username_skips_redeemed_check
    (db : List Coupon) (orders : List StoredOrder) (uid code : String)
    (total : ℚ) (now : Int) (coupon : Coupon)
    (hfind : findActiveCoupon db code = some coupon)
    (hexp : ¬ coupon.expiryDate < now)
    (htarget : coupon.targetUsername = none)
    (hmin : coupon.minOrderAmount = 0 ∨ ¬ total < coupon.minOrderAmount)
    (hfirst : coupon.couponType = .FIRST_ORDER → countOrdersByUserIdField orders uid = 0)
    (_hused : uid ∈ coupon.usedBy) :
    validateCoupon db orders uid none code total now = .valid coupon := by
  rw [validateCoupon, hfind]
  dsimp only
  rw [if_neg hexp]
  rw [if_neg (by simp)]
  rw [htarget]
  dsimp only
  rw [validateTail]
  rw [if_neg (by rcases hmin with h | h <;> simp [h])]
  by_cases hft : coupon.couponType = .FIRST_ORDER
  · rw [if_neg (by simp [hfirst hft])]
  · rw [if_neg (by simp [hft])]

/-- A REGULAR untargeted coupon already redeemed by user u1. -/
def couponRedeemed : Coupon :=
  { code := "SAVE10", discountAmount := 10, expiryDate := 100,
    minOrderAmount := 0, couponType := .REGULAR, targetUsername := none,
    giftMessage := none, isActive := true, usedBy := ["u1"] }

/-- Witness for C10: user u1 is in the usedBy set of SAVE10, yet with an
unresolved username the endpoint reports the coupon valid for u1. -/
theorem missing_username_skips_redeemed_check_witness :
    validateCoupon [couponRedeemed] [] "u1" none "SAVE10" 100 0 = .valid couponRedeemed :=
  missing_username_skips_redeemed_check [couponRedeemed] [] "u1" "SAVE10" 100 0
    couponRedeemed (by decide) (by decide) rfl (Or.inl rfl) (fun _ => rfl) (by decide)

/-- The FIRST_ORDER coupon used for the C6 evaluation. -/
def couponFIRST : Coupon :=
  { code := "FIRST50", discountAmount := 50, expiryDate := 100,
    minOrderAmount := 0, couponType := .FIRST_ORDER, targetUsername := none,
    giftMessage := none, isActive := true, usedBy := [] }

/-- The order request whose placement gives user u1 a prior order. -/
def reqC6 : OrderRequest :=
  { items := [⟨"p1", "apple", 100, 2⟩], discount := none, couponCodes := none,
    deliveryCharge := none, clientTotal := none, clientFinalTotal := none,
    username := some "sid" }

/-- The stored order created by the order handler for user u1. -/
def priorOrderC6 : StoredOrder := placeOrder reqC6 "u1" "sid"

/-- C6 evaluation: the handler stores the buyer under the `user` field (and
no `userId` path), so `Order.countDocuments({ userId })` counts zero prior
orders for u1 and a FIRST_ORDER coupon validates for a user who has already
placed an order — the first-order restriction never fires. -/
theorem first_order_check_misses_prior_order :
    priorOrderC6.user = "u1" ∧ priorOrderC6.userId = none ∧
    countOrdersByUserIdField [priorOrderC6] "u1" = 0 ∧
    validateCoupon [couponFIRST] [priorOrderC6] "u1" (some "sid") "FIRST50" 500 0
      = .valid couponFIRST := by
  refine ⟨rfl, rfl, rfl, ?_⟩
  decide

lemma mem_addToSet (l : List String) (x : String) : x ∈ addToSet l x := by
  rw [addToSet]
  by_cases h : x ∈ l
  · rwa [if_pos h]
  · rw [if_neg h]
    exact List.mem_append_right l (List.mem_singleton.mpr rfl)

lemma addToSet_idem (l : List String) (x : String) :
    addToSet (addToSet l x) x = addToSet l x := by
  conv_lhs => rw [addToSet]
  rw [if_pos (mem_addToSet l x)]

/-- C9: marking coupons used is an idempotent set-insert — running the
`$addToSet` update twice for the same (codes, user) leaves the catalog
exactly as one run does, and every matched coupon afterwards answers the
`usedBy` membership test positively. -/
theorem markUsed_idempotent (db : List Coupon) (codes : List String) (uid : String) :
    markCouponsUsed (markCouponsUsed db codes uid) codes uid
      = markCouponsUsed db codes uid ∧
    ∀ c ∈ markCouponsUsed db codes uid, c.code ∈ codes → hasUsed c uid = true := by
  constructor
  · rw [markCouponsUsed, markCouponsUsed, List.map_map]
    apply List.map_congr_left
    intro c _
    by_cases h : c.code ∈ codes
    · simp [Function.comp, h, addToSet_idem]
    · simp [Function.comp, h]
  · intro c hc hcode
    rw [markCouponsUsed] at hc
    obtain ⟨c0, hc0, rfl⟩ := List.mem_map.mp hc
    by_cases h : c0.code ∈ codes
    · simp only [if_pos h, hasUsed]
      simpa using mem_addToSet c0.usedBy uid
    · rw [if_neg h] at hcode ⊢
      exact absurd hcode h

/-- Witness for C9: double-marking ABOVE2000 for user u9 equals a single
marking, and the marked coupon reports u9 as having used it. -/
theorem markUsed_idempotent_witness :
    markCouponsUsed (markCouponsUsed catalogDb ["ABOVE2000"] "u9") ["ABOVE2000"] "u9"
      = markCouponsUsed catalogDb ["ABOVE2000"] "u9" ∧
    hasUsed { couponABOVE2000 with usedBy := ["u9"] } "u9" = true :=
  ⟨(markUsed_idempotent catalogDb ["ABOVE2000"] "u9").1,
   (markUsed_idempotent catalogDb ["ABOVE2000"] "u9").2 _ (by decide) (by decide)⟩
